import Mathlib

/-!
Verification of the UAV WebSocket server (`src/uav_server.py`).

Shallow embedding of the parts of the server that the claims are about:
the command executor (`execute_command`), the inbound message dispatcher
(`handle_message`), one iteration of the periodic telemetry loop
(`telemetry_broadcaster`), and the client registry with the per-connection
handler (`register_client` / `unregister_client` / `handle_client`).

Python dictionaries are modelled as association lists of `String × PyVal`
where the latest binding for a key wins (this matches the semantics of a
Python dict literal with `**` splats: later entries override earlier ones).
Effects of the outside world are passed in as oracles: the outcome of
`subprocess.run` is a `RunOutcome`-valued function of the command string,
and the snapshot / broadcast steps of the telemetry loop are `Except`
values (an `Except.error` models a raised exception at that point).
-/

/-- Python values as they occur in the JSON messages and results of the server. -/
inductive PyVal where
  | str : String → PyVal
  | int : Int → PyVal
  | bool : Bool → PyVal
  | none : PyVal
  | list : List PyVal → PyVal
  | dict : List (String × PyVal) → PyVal

/-- Python dict lookup (`d.get(k)` without default): the latest binding for
`k` wins, matching Python dict-literal override semantics. -/
def dget : List (String × PyVal) → String → Option PyVal
  | [], _ => Option.none
  | (k', v) :: rest, k =>
    match dget rest k with
    | Option.some w => Option.some w
    | Option.none => if k' = k then Option.some v else Option.none

/-- Python `str()` as used by f-string interpolation in the source.  The
rendering of composite values (lists and dicts) is abstracted, since no
verified claim inspects such a rendering. -/
def pyStr : PyVal → String
  | .str s => s
  | .int n => toString n
  | .bool true => "True"
  | .bool false => "False"
  | .none => "None"
  | .list _ => "<list>"
  | .dict _ => "<dict>"

/-- The static allow-list `self.allowed_commands` from `UAVServer.__init__`,
in source order (a Python dict preserves insertion order, which is what
`list(self.allowed_commands.keys())` returns). -/
def allowed_commands : List (String × String) :=
  [("system_info", "uname -a"),
   ("disk_usage", "df -h"),
   ("memory_info", "free -h"),
   ("network_info", "ip addr show"),
   ("processes", "ps aux"),
   ("uptime", "uptime"),
   ("temperature", "sensors"),
   ("gpio_status", "gpio readall"),
   ("wifi_status", "iwconfig"),
   ("ping_test", "ping -c 4 8.8.8.8"),
   ("reboot", "sudo reboot"),
   ("shutdown", "sudo shutdown -h now")]

/-- Outcome of one `subprocess.run(command, shell=True, capture_output=True,
text=True, timeout=30)` call: normal completion with captured streams and
return code, a `subprocess.TimeoutExpired`, or some other raised exception
(whose `str()` is the carried message). -/
inductive RunOutcome where
  | completed (stdout stderr : String) (returncode : Int)
  | timedOut
  | raised (msg : String)

/-- Result of `execute_command`: the returned result dict, together with the
list of command strings that were actually passed to the shell via
`subprocess.run` during the call (empty when nothing was executed). -/
structure ExecOutcome where
  result : List (String × PyVal)
  executed : List String

/-- The early-return branch of `execute_command` for a command key that is
not in the allow-list (lines 119-124 of the source). -/
def notAllowedResult (command_key : PyVal) : ExecOutcome :=
  { result := [("success", PyVal.bool false),
               ("error", PyVal.str ("Komut izin verilmiyor: " ++ pyStr command_key)),
               ("available_commands",
                PyVal.list (allowed_commands.map (fun p => PyVal.str p.1)))],
    executed := [] }

/-- `UAVServer.execute_command` (source lines 117-165).  `run` is the oracle
for `subprocess.run` on the resolved command string; `now` stands for
`datetime.now().isoformat()`.  `params` is modelled as a mapping
(the protocol declares `params` to be a mapping, and `handle_message`
defaults it to `\x7b\x7d`); Python truthiness of that mapping is emptiness.
A non-string `command_key` fails the membership test just as any absent
key does. -/
def execute_command (run : String → RunOutcome) (now : String)
    (command_key : PyVal) (params : List (String × PyVal)) : ExecOutcome :=
  match command_key with
  | .str ck =>
    match allowed_commands.lookup ck with
    | Option.some base =>
      let command :=
        if params.isEmpty = false ∧ ck = "ping_test" then
          "ping -c 4 " ++ pyStr ((dget params "target").getD (PyVal.str "8.8.8.8"))
        else base
      match run command with
      | .completed out err code =>
        { result := [("success", PyVal.bool true),
                     ("command", PyVal.str ck),
                     ("output", PyVal.str out),
                     ("error", PyVal.str err),
                     ("return_code", PyVal.int code),
                     ("timestamp", PyVal.str now)],
          executed := [command] }
      | .timedOut =>
        { result := [("success", PyVal.bool false),
                     ("error", PyVal.str "Komut zaman aşımına uğradı (30s)"),
                     ("command", PyVal.str ck)],
          executed := [command] }
      | .raised msg =>
        { result := [("success", PyVal.bool false),
                     ("error", PyVal.str msg),
                     ("command", PyVal.str ck)],
          executed := [command] }
    | Option.none => notAllowedResult command_key
  | _ => notAllowedResult command_key

/-- An inbound frame as seen by `handle_message`: either a payload that
`json.loads` rejects, or the parsed object (modelled as a dict, which is
what every well-formed client message is). -/
inductive InMsg where
  | malformed
  | parsed (data : List (String × PyVal))

/-- View a `PyVal` as a dict, used for `data.get("params", \x7b\x7d)`. -/
def asDict : PyVal → List (String × PyVal)
  | .dict d => d
  | _ => []

/-- `UAVServer.handle_message` (source lines 167-213), returning the
response dict sent back to the originating session.  `run` and `now` are as
in `execute_command`; `telemetry` is the snapshot that
`get_telemetry_data()` returns on this call (the snapshot itself is an
external collaborator). -/
def handle_message (run : String → RunOutcome) (now : String)
    (telemetry : List (String × PyVal)) (msg : InMsg) : List (String × PyVal) :=
  match msg with
  | .malformed =>
    [("type", PyVal.str "error"),
     ("message", PyVal.str "Geçersiz JSON formatı")]
  | .parsed data =>
    match (dget data "type").getD PyVal.none with
    | .str "command" =>
      let command_key := (dget data "command").getD PyVal.none
      let params := asDict ((dget data "params").getD (PyVal.dict []))
      let result := execute_command run now command_key params
      [("type", PyVal.str "command_result"),
       ("request_id", (dget data "request_id").getD PyVal.none)] ++ result.result
    | .str "ping" =>
      [("type", PyVal.str "pong"), ("timestamp", PyVal.str now)]
    | .str "get_telemetry" =>
      [("type", PyVal.str "telemetry")] ++ telemetry
    | message_type =>
      [("type", PyVal.str "error"),
       ("message", PyVal.str ("Bilinmeyen mesaj tipi: " ++ pyStr message_type))]

/-- Observable trace of one iteration of the `telemetry_broadcaster` loop:
how many snapshots were taken, which broadcast messages went out, which
exception messages were logged, whether the interval sleep was reached
(so the next tick proceeds on schedule), and whether the loop continues
after this iteration. -/
structure TickTrace where
  snapshots : Nat
  broadcasts : List (List (String × PyVal))
  logged : List String
  slept : Bool
  running : Bool

/-- One iteration of `UAVServer.telemetry_broadcaster` (source lines
248-262).  `is_running` is the loop guard `self.is_running`; `clients` the
registry; `snap` the outcome of `await self.get_telemetry_data()` and
`bcast` the outcome of `await self.broadcast_to_all(...)`, where an
`Except.error` models a raised exception caught by the `except` clause
(which logs and still sleeps the interval). -/
def telemetry_broadcaster_tick (is_running : Bool) (clients : List Nat)
    (snap : Except String (List (String × PyVal)))
    (bcast : List (String × PyVal) → Except String Unit) : TickTrace :=
  if is_running then
    if clients ≠ [] then
      match snap with
      | .error e =>
        { snapshots := 0, broadcasts := [], logged := [e],
          slept := true, running := true }
      | .ok telemetry =>
        let msg := [("type", PyVal.str "telemetry_broadcast")] ++ telemetry
        match bcast msg with
        | .error e =>
          { snapshots := 1, broadcasts := [], logged := [e],
            slept := true, running := true }
        | .ok _ =>
          { snapshots := 1, broadcasts := [msg], logged := [],
            slept := true, running := true }
    else
      { snapshots := 0, broadcasts := [], logged := [],
        slept := true, running := true }
  else
    { snapshots := 0, broadcasts := [], logged := [],
      slept := false, running := false }

/-- `UAVServer.register_client` registry effect: `self.clients.add(ws)`. -/
def register_client (clients : List Nat) (ws : Nat) : List Nat :=
  if ws ∈ clients then clients else clients ++ [ws]

/-- `UAVServer.unregister_client` registry effect:
`self.clients.discard(ws)` (source lines 77-80). -/
def unregister_client (clients : List Nat) (ws : Nat) : List Nat :=
  clients.filter (fun c => c ≠ ws)

/-- How the `async for` message loop of `handle_client` exits: the iterator
ends, the transport raises `ConnectionClosed`, or some other exception
escapes a message handler. -/
inductive LoopExit where
  | finished
  | connectionClosed
  | exception (msg : String)

/-- `UAVServer.handle_client` (source lines 264-276), tracking only its
registry effect: register the session, run the message loop (whose
cumulative effect on the registry is the arbitrary function `loopBody`,
covering sends that unregister other sessions or this one), and on every
exit path run the `finally` block, which unregisters the session. -/
def handle_client (clients : List Nat) (ws : Nat)
    (loopBody : List Nat → List Nat) (ex : LoopExit) : List Nat :=
  let c1 := register_client clients ws
  let c2 :=
    match ex with
    | .finished => loopBody c1
    | .connectionClosed => loopBody c1
    | .exception _ => loopBody c1
  unregister_client c2 ws

/-- Appending association lists: when the right-hand list (the
`**`-splatted dict) has no binding for `k`, lookup falls through to the
left-hand prefix. -/
theorem dget_append_none (a b : List (String × PyVal)) (k : String)
    (h : dget b k = Option.none) : dget (a ++ b) k = dget a k := by
  induction a with
  | nil => simpa using h
  | cons p rest ih =>
    obtain ⟨k', v⟩ := p
    have e1 : dget (((k', v) :: rest) ++ b) k
        = match dget (rest ++ b) k with
          | Option.some w => Option.some w
          | Option.none => if k' = k then Option.some v else Option.none := rfl
    have e2 : dget ((k', v) :: rest) k
        = match dget rest k with
          | Option.some w => Option.some w
          | Option.none => if k' = k then Option.some v else Option.none := rfl
    rw [e1, ih, e2]

/-- No result dict produced by `execute_command` contains a `request_id`
binding, so the correlation id placed before the `**result` splat in
`handle_message` survives the merge. -/
theorem exec_result_no_request_id (run : String → RunOutcome) (now : String)
    (command_key : PyVal) (params : List (String × PyVal)) :
    dget (execute_command run now command_key params).result "request_id"
      = Option.none := by
  cases command_key with
  | str ck =>
    simp only [execute_command]
    cases h : allowed_commands.lookup ck with
    | none => simp [h, notAllowedResult, dget]
    | some base =>
      simp only [h]
      cases hr : run (if params.isEmpty = false ∧ ck = "ping_test" then
          "ping -c 4 " ++ pyStr ((dget params "target").getD (PyVal.str "8.8.8.8"))
        else base) <;> simp [hr, dget]
  | int n => rfl
  | bool b => rfl
  | none => rfl
  | list l => rfl
  | dict d => rfl

/-- C1: the claim says a `ping_test` target that is not composed solely of
alphanumerics, dots, and hyphens is rejected with a validation failure and
never passed to the shell.  The code performs no validation at all: at the
concrete injection payload `8.8.8.8; echo pwned`, the substituted command
string (payload included, verbatim) is passed to the shell and the call
returns a success result, not a validation failure. -/
theorem C1_injection_reaches_shell :
    (execute_command (fun _ => RunOutcome.completed "" "" 0) "t0"
        (PyVal.str "ping_test")
        [("target", PyVal.str "8.8.8.8; echo pwned")]).executed
      = ["ping -c 4 8.8.8.8; echo pwned"] ∧
    dget (execute_command (fun _ => RunOutcome.completed "" "" 0) "t0"
        (PyVal.str "ping_test")
        [("target", PyVal.str "8.8.8.8; echo pwned")]).result "success"
      = Option.some (PyVal.bool true) := ⟨rfl, rfl⟩

/-- C6: for every command key absent from the static allow-list and any
parameters, `execute_command` fails immediately (nothing is executed) with
`success = false` and an `available_commands` list equal to the full list
of allow-listed keys. -/
theorem C6_unknown_command_rejected (run : String → RunOutcome)
    (now ck : String) (params : List (String × PyVal))
    (h : allowed_commands.lookup ck = Option.none) :
    dget (execute_command run now (PyVal.str ck) params).result "success"
      = Option.some (PyVal.bool false) ∧
    dget (execute_command run now (PyVal.str ck) params).result
        "available_commands"
      = Option.some (PyVal.list (allowed_commands.map (fun p => PyVal.str p.1))) ∧
    (execute_command run now (PyVal.str ck) params).executed = [] := by
  simp only [execute_command, h]
  refine ⟨rfl, rfl, rfl⟩

/-- Witness for C6 at the concrete key `no_such_key`. -/
theorem C6_unknown_command_rejected_witness :
    dget (execute_command (fun _ => RunOutcome.timedOut) "t0"
        (PyVal.str "no_such_key") []).result "success"
      = Option.some (PyVal.bool false) ∧
    (execute_command (fun _ => RunOutcome.timedOut) "t0"
        (PyVal.str "no_such_key") []).executed = [] :=
  ⟨(C6_unknown_command_rejected (fun _ => RunOutcome.timedOut) "t0"
      "no_such_key" [] (by decide)).1,
   (C6_unknown_command_rejected (fun _ => RunOutcome.timedOut) "t0"
      "no_such_key" [] (by decide)).2.2⟩

/-- C7: for every allow-listed command whose execution exceeds the
30-second timeout, `execute_command` returns `success = false` with the
timeout-specific error message, echoes the command key, and the
`return_code` field is absent from the result. -/
theorem C7_timeout_failure (run : String → RunOutcome) (now ck : String)
    (params : List (String × PyVal)) (base : String)
    (hb : allowed_commands.lookup ck = Option.some base)
    (hrun : ∀ c, run c = RunOutcome.timedOut) :
    dget (execute_command run now (PyVal.str ck) params).result "success"
      = Option.some (PyVal.bool false) ∧
    dget (execute_command run now (PyVal.str ck) params).result "error"
      = Option.some (PyVal.str "Komut zaman aşımına uğradı (30s)") ∧
    dget (execute_command run now (PyVal.str ck) params).result "command"
      = Option.some (PyVal.str ck) ∧
    dget (execute_command run now (PyVal.str ck) params).result "return_code"
      = Option.none := by
  simp only [execute_command, hb, hrun]
  refine ⟨rfl, rfl, rfl, rfl⟩

/-- Witness for C7 at the concrete allow-listed key `uptime`. -/
theorem C7_timeout_failure_witness :
    dget (execute_command (fun _ => RunOutcome.timedOut) "t0"
        (PyVal.str "uptime") []).result "success"
      = Option.some (PyVal.bool false) ∧
    dget (execute_command (fun _ => RunOutcome.timedOut) "t0"
        (PyVal.str "uptime") []).result "return_code" = Option.none :=
  ⟨(C7_timeout_failure (fun _ => RunOutcome.timedOut) "t0" "uptime" []
      "uptime" (by decide) (fun _ => rfl)).1,
   (C7_timeout_failure (fun _ => RunOutcome.timedOut) "t0" "uptime" []
      "uptime" (by decide) (fun _ => rfl)).2.2.2⟩

/-- C3 counterexample: the claim says a non-zero exit code yields
`success = false`.  At the allow-listed key `uptime` with the process
completing with return code 1, the code returns `success = true` (the
flag records that the command ran, not that it exited with 0). -/
theorem C3_nonzero_exit_counterexample :
    dget (execute_command (fun _ => RunOutcome.completed "" "" 1) "t0"
        (PyVal.str "uptime") []).result "success"
      = Option.some (PyVal.bool true) ∧
    dget (execute_command (fun _ => RunOutcome.completed "" "" 1) "t0"
        (PyVal.str "uptime") []).result "return_code"
      = Option.some (PyVal.int 1) := ⟨rfl, rfl⟩

/-- C3 amended: for every allow-listed command key whose underlying process
terminates with a non-zero exit code (without timing out),
`execute_command` returns a structured result with `success = true` that
carries the exit code in `return_code` (and the captured streams), echoed
to the requesting client, never a raised fault that aborts the session. -/
theorem C3_nonzero_exit_amended (run : String → RunOutcome) (now ck : String)
    (params : List (String × PyVal)) (base : String)
    (hb : allowed_commands.lookup ck = Option.some base)
    (out err : String) (code : Int) (_hcode : code ≠ 0)
    (hrun : ∀ c, run c = RunOutcome.completed out err code) :
    dget (execute_command run now (PyVal.str ck) params).result "success"
      = Option.some (PyVal.bool true) ∧
    dget (execute_command run now (PyVal.str ck) params).result "return_code"
      = Option.some (PyVal.int code) ∧
    dget (execute_command run now (PyVal.str ck) params).result "command"
      = Option.some (PyVal.str ck) ∧
    dget (execute_command run now (PyVal.str ck) params).result "output"
      = Option.some (PyVal.str out) ∧
    dget (execute_command run now (PyVal.str ck) params).result "error"
      = Option.some (PyVal.str err) := by
  simp only [execute_command, hb, hrun]
  refine ⟨rfl, rfl, rfl, rfl, rfl⟩

/-- Witness for the amended C3 at key `uptime` and exit code 1. -/
theorem C3_nonzero_exit_amended_witness :
    dget (execute_command (fun _ => RunOutcome.completed "o" "e" 1) "t0"
        (PyVal.str "uptime") []).result "success"
      = Option.some (PyVal.bool true) ∧
    dget (execute_command (fun _ => RunOutcome.completed "o" "e" 1) "t0"
        (PyVal.str "uptime") []).result "return_code"
      = Option.some (PyVal.int 1) :=
  ⟨(C3_nonzero_exit_amended (fun _ => RunOutcome.completed "o" "e" 1) "t0"
      "uptime" [] "uptime" (by decide) "o" "e" 1 (by decide)
      (fun _ => rfl)).1,
   (C3_nonzero_exit_amended (fun _ => RunOutcome.completed "o" "e" 1) "t0"
      "uptime" [] "uptime" (by decide) "o" "e" 1 (by decide)
      (fun _ => rfl)).2.1⟩

/-- C9 counterexample: the claim says a success flag and a populated error
message never occur together.  At the allow-listed key `uptime` with the
process completing and writing `warn` to standard error, the result has
both `success = true` and a non-empty `error` field (the code stores the
captured stderr under `error` on success). -/
theorem C9_both_populated_counterexample :
    dget (execute_command (fun _ => RunOutcome.completed "out" "warn" 0) "t0"
        (PyVal.str "uptime") []).result "success"
      = Option.some (PyVal.bool true) ∧
    dget (execute_command (fun _ => RunOutcome.completed "out" "warn" 0) "t0"
        (PyVal.str "uptime") []).result "error"
      = Option.some (PyVal.str "warn") := ⟨rfl, rfl⟩

/-- C9 amended: every result of an allow-listed execution populates the
`error` field: on completed execution it carries the captured stderr
(possibly non-empty) alongside `success = true` and the captured `output`
— so a success flag and a populated error message can occur together; on
timeout or execution error it carries the failure message with
`success = false` and no `output` field at all. -/
theorem C9_result_fields_amended (now ck : String)
    (params : List (String × PyVal)) (base : String)
    (hb : allowed_commands.lookup ck = Option.some base) (o : RunOutcome) :
    (∀ out err code, o = RunOutcome.completed out err code →
      dget (execute_command (fun _ => o) now (PyVal.str ck) params).result
          "success" = Option.some (PyVal.bool true) ∧
      dget (execute_command (fun _ => o) now (PyVal.str ck) params).result
          "output" = Option.some (PyVal.str out) ∧
      dget (execute_command (fun _ => o) now (PyVal.str ck) params).result
          "error" = Option.some (PyVal.str err)) ∧
    ((o = RunOutcome.timedOut ∨ ∃ m, o = RunOutcome.raised m) →
      dget (execute_command (fun _ => o) now (PyVal.str ck) params).result
          "success" = Option.some (PyVal.bool false) ∧
      (∃ e, dget (execute_command (fun _ => o) now (PyVal.str ck) params).result
          "error" = Option.some (PyVal.str e)) ∧
      dget (execute_command (fun _ => o) now (PyVal.str ck) params).result
          "output" = Option.none) := by
  constructor
  · intro out err code ho
    subst ho
    simp only [execute_command, hb]
    refine ⟨rfl, rfl, rfl⟩
  · intro ho
    rcases ho with ho | ⟨m, ho⟩ <;> subst ho <;>
      simp only [execute_command, hb] <;>
      exact ⟨rfl, ⟨_, rfl⟩, rfl⟩

/-- Witness for the amended C9 at key `uptime`, run completing with stderr
`warn`. -/
theorem C9_result_fields_amended_witness :
    dget (execute_command (fun _ => RunOutcome.completed "out" "warn" 0) "t0"
        (PyVal.str "uptime") []).result "error"
      = Option.some (PyVal.str "warn") :=
  ((C9_result_fields_amended "t0" "uptime" [] "uptime" (by decide)
      (RunOutcome.completed "out" "warn" 0)).1 "out" "warn" 0 rfl).2.2

/-- C2: while the server is running, if computing the snapshot or
broadcasting it raises an exception on an iteration of the telemetry
broadcaster loop, the exception is logged, the loop does not terminate,
and the interval sleep is still reached so the next tick proceeds. -/
theorem C2_broadcaster_survives_failures (clients : List Nat) (e : String)
    (t : List (String × PyVal))
    (bcast : List (String × PyVal) → Except String Unit)
    (hc : clients ≠ []) :
    ((telemetry_broadcaster_tick true clients (Except.error e) bcast).logged
        = [e] ∧
     (telemetry_broadcaster_tick true clients (Except.error e) bcast).slept
        = true ∧
     (telemetry_broadcaster_tick true clients (Except.error e) bcast).running
        = true) ∧
    ((telemetry_broadcaster_tick true clients (Except.ok t)
        (fun _ => Except.error e)).logged = [e] ∧
     (telemetry_broadcaster_tick true clients (Except.ok t)
        (fun _ => Except.error e)).slept = true ∧
     (telemetry_broadcaster_tick true clients (Except.ok t)
        (fun _ => Except.error e)).running = true) := by
  simp [telemetry_broadcaster_tick, hc]

/-- Witness for C2 with one registered client and failure message `boom`,
for both failure points. -/
theorem C2_broadcaster_survives_failures_witness :
    (telemetry_broadcaster_tick true [0] (Except.error "boom")
        (fun _ => Except.ok ())).logged = ["boom"] ∧
    (telemetry_broadcaster_tick true [0] (Except.ok [])
        (fun _ => Except.error "boom")).running = true :=
  ⟨(C2_broadcaster_survives_failures [0] "boom" [] (fun _ => Except.ok ())
      (by decide)).1.1,
   (C2_broadcaster_survives_failures [0] "boom" [] (fun _ => Except.ok ())
      (by decide)).2.2.2⟩

/-- C4 counterexample: the claim says every tick takes exactly one snapshot
and broadcasts one message even when the registry is empty.  With an empty
registry the code (guard `if self.clients:`) takes no snapshot and
broadcasts nothing on that tick. -/
theorem C4_empty_registry_counterexample :
    (telemetry_broadcaster_tick true [] (Except.ok [("x", PyVal.int 1)])
        (fun _ => Except.ok ())).snapshots = 0 ∧
    (telemetry_broadcaster_tick true [] (Except.ok [("x", PyVal.int 1)])
        (fun _ => Except.ok ())).broadcasts = [] := ⟨rfl, rfl⟩

/-- C4 amended: on every tick while running with a non-empty registry and
no failure, exactly one snapshot is taken and exactly one
`telemetry_broadcast` message is broadcast; on an empty registry the
snapshot and the broadcast are skipped for that tick, but the interval
sleep still happens and the loop continues to the next tick. -/
theorem C4_tick_amended (clients : List Nat) (t : List (String × PyVal)) :
    (clients ≠ [] →
      (telemetry_broadcaster_tick true clients (Except.ok t)
          (fun _ => Except.ok ())).snapshots = 1 ∧
      (telemetry_broadcaster_tick true clients (Except.ok t)
          (fun _ => Except.ok ())).broadcasts
        = [("type", PyVal.str "telemetry_broadcast") :: t] ∧
      (telemetry_broadcaster_tick true clients (Except.ok t)
          (fun _ => Except.ok ())).slept = true ∧
      (telemetry_broadcaster_tick true clients (Except.ok t)
          (fun _ => Except.ok ())).running = true) ∧
    (clients = [] →
      (telemetry_broadcaster_tick true clients (Except.ok t)
          (fun _ => Except.ok ())).snapshots = 0 ∧
      (telemetry_broadcaster_tick true clients (Except.ok t)
          (fun _ => Except.ok ())).broadcasts = [] ∧
      (telemetry_broadcaster_tick true clients (Except.ok t)
          (fun _ => Except.ok ())).slept = true ∧
      (telemetry_broadcaster_tick true clients (Except.ok t)
          (fun _ => Except.ok ())).running = true) := by
  constructor
  · intro hc
    simp [telemetry_broadcaster_tick, hc]
  · intro hc
    subst hc
    simp [telemetry_broadcaster_tick]

/-- Witness for the amended C4 at a one-client registry and at the empty
registry. -/
theorem C4_tick_amended_witness :
    (telemetry_broadcaster_tick true [0] (Except.ok [])
        (fun _ => Except.ok ())).snapshots = 1 ∧
    (telemetry_broadcaster_tick true [] (Except.ok [])
        (fun _ => Except.ok ())).snapshots = 0 :=
  ⟨((C4_tick_amended [0] []).1 (by decide)).1,
   ((C4_tick_amended [] []).2 rfl).1⟩

/-- C8: whatever the message loop did to the registry and however it exits
(iterator end, transport close, or an unhandled exception), the `finally`
block of `handle_client` unregisters the session, so the session is absent
from the registry once `handle_client` returns — hence before the next
broadcast tick reads the registry. -/
theorem C8_disconnect_deregisters (clients : List Nat) (ws : Nat)
    (loopBody : List Nat → List Nat) (ex : LoopExit) :
    ws ∉ handle_client clients ws loopBody ex := by
  cases ex <;> simp [handle_client, unregister_client]

/-- C5 counterexample: the claim says a `get_system_info` message is
answered with a fresh snapshot (`system_info` response), not an error.
The dispatcher has no `get_system_info` branch: such a message falls into
the unknown-type branch and is answered with an `error` response. -/
theorem C5_get_system_info_counterexample :
    handle_message (fun _ => RunOutcome.timedOut) "t0" []
        (InMsg.parsed [("type", PyVal.str "get_system_info")])
      = [("type", PyVal.str "error"),
         ("message", PyVal.str "Bilinmeyen mesaj tipi: get_system_info")] := rfl

/-- C5 amended: every inbound `get_telemetry` message is answered with a
freshly computed snapshot (response type `telemetry`); an inbound
`get_system_info` message is not recognized and is answered with an
`error` response naming the unknown type. -/
theorem C5_snapshot_amended (run : String → RunOutcome) (now : String)
    (telemetry data : List (String × PyVal)) :
    ((dget data "type").getD PyVal.none = PyVal.str "get_telemetry" →
      handle_message run now telemetry (InMsg.parsed data)
        = ("type", PyVal.str "telemetry") :: telemetry) ∧
    ((dget data "type").getD PyVal.none = PyVal.str "get_system_info" →
      handle_message run now telemetry (InMsg.parsed data)
        = [("type", PyVal.str "error"),
           ("message", PyVal.str "Bilinmeyen mesaj tipi: get_system_info")]) := by
  constructor
  · intro h
    simp only [handle_message]
    rw [h]
    rfl
  · intro h
    simp only [handle_message]
    rw [h]
    rfl

/-- Witness for the amended C5: a concrete `get_telemetry` message gets the
snapshot back under response type `telemetry`. -/
theorem C5_snapshot_amended_witness :
    handle_message (fun _ => RunOutcome.timedOut) "t0" [("x", PyVal.int 1)]
        (InMsg.parsed [("type", PyVal.str "get_telemetry")])
      = ("type", PyVal.str "telemetry") :: [("x", PyVal.int 1)] :=
  (C5_snapshot_amended (fun _ => RunOutcome.timedOut) "t0"
      [("x", PyVal.int 1)] [("type", PyVal.str "get_telemetry")]).1 rfl

/-- C10: for every inbound `command` message, the `command_result` response
carries a `request_id` equal to the one supplied in the request; an absent
`request_id` is mapped to null (`data.get` returns `None`). -/
theorem C10_request_id_echo (run : String → RunOutcome) (now : String)
    (telemetry data : List (String × PyVal))
    (h : (dget data "type").getD PyVal.none = PyVal.str "command") :
    dget (handle_message run now telemetry (InMsg.parsed data)) "request_id"
      = Option.some ((dget data "request_id").getD PyVal.none) := by
  have e : handle_message run now telemetry (InMsg.parsed data)
      = [("type", PyVal.str "command_result"),
         ("request_id", (dget data "request_id").getD PyVal.none)]
        ++ (execute_command run now ((dget data "command").getD PyVal.none)
              (asDict ((dget data "params").getD (PyVal.dict [])))).result := by
    simp only [handle_message]
    rw [h]
    rfl
  rw [e, dget_append_none _ _ _ (exec_result_no_request_id _ _ _ _)]
  rfl

/-- Witness for C10: a concrete `command` message with no `request_id`
field is answered with `request_id = None`. -/
theorem C10_request_id_echo_witness :
    dget (handle_message (fun _ => RunOutcome.timedOut) "t0" []
        (InMsg.parsed [("type", PyVal.str "command"),
                       ("command", PyVal.str "uptime")])) "request_id"
      = Option.some PyVal.none :=
  C10_request_id_echo (fun _ => RunOutcome.timedOut) "t0" []
    [("type", PyVal.str "command"), ("command", PyVal.str "uptime")] rfl
